import Mathlib

/-!
# Verification of the stationary detector and GPS drift rule

Shallow embedding of the repository sources:

* `src/utils/sensors.ts` — class `StationaryDetector`: a sliding-window
  statistical stationary-state classifier with a dwell (debounce) timer.
* `src/LocationService.ts` — the GPS drift decision rule inside the
  `Geolocation.watchPosition` callback of `LocationService.startWatching`.

Sensor values are modelled as real numbers, timestamps (`Date.now()`,
milliseconds) as integers.  The mutable class instance becomes an explicit
`DetectorState` threaded through each operation; `Date.now()` becomes an
explicit `now` argument (sampled once per call, as in the source where both
reads happen within one synchronous call).
-/

namespace AccelerometerWithLocation

/-- One retained entry of the deviation history (`interface DeviationData`). -/
structure DeviationData where
  value : ℝ
  timestamp : ℤ

/-- The value returned by `detectStationary`
(`interface StationaryDetectionResult`). -/
structure StationaryDetectionResult where
  isStationary : Bool
  mean : ℝ
  standardDeviation : ℝ
  duration : ℤ
  stateChanged : Bool

/-- The five constructor parameters of `StationaryDetector` (all fixed after
construction; the `?? default` resolution is outside the model since every
claim quantifies over the resolved values). -/
structure StationaryConfig where
  historyDurationMs : ℤ
  meanThreshold : ℝ
  stdThreshold : ℝ
  stationaryDurationMs : ℤ
  minSampleCount : ℕ

/-- The mutable fields of a `StationaryDetector` instance. -/
structure DetectorState where
  deviationHistory : List DeviationData
  isStationary : Bool
  stationaryStartTime : Option ℤ

/-- Field initialisers of the class: empty history, not stationary, no dwell
timer. -/
def initialState : DetectorState :=
  { deviationHistory := [], isStationary := false, stationaryStartTime := none }

/-- Model of `addDeviationData` — push the new sample, then keep only entries with
`now - data.timestamp <= historyDurationMs` (the filter also sees the freshly
pushed sample, exactly as in the source). -/
def addDeviationData (cfg : StationaryConfig) (history : List DeviationData)
    (deviation : ℝ) (now : ℤ) : List DeviationData :=
  (history ++ [({ value := deviation, timestamp := now } : DeviationData)]).filter
    fun data => now - data.timestamp ≤ cfg.historyDurationMs

/-- Model of `calculateMean` — 0 on an empty history, otherwise the sum of the values
divided by the length. -/
noncomputable def calculateMean (history : List DeviationData) : ℝ :=
  if history.length = 0 then 0
  else (history.map fun data => data.value).sum / history.length

/-- Model of `calculateStandardDeviation` — 0 on an empty history, otherwise the square
root of the population variance. -/
noncomputable def calculateStandardDeviation (history : List DeviationData) : ℝ :=
  if history.length = 0 then 0
  else Real.sqrt
    (((history.map fun data => (data.value - calculateMean history) ^ 2).sum) /
      history.length)

/-- The final `duration` computation of `detectStationary`:
`this.stationaryStartTime ? now - this.stationaryStartTime : 0`.
The source tests JS truthiness, not `!== null`, so a stored timestamp equal
to 0 also yields 0. -/
def durationOf (stationaryStartTime : Option ℤ) (now : ℤ) : ℤ :=
  match stationaryStartTime with
  | none => 0
  | some t => if t = 0 then 0 else now - t

/-- The body of `detectStationary` after the deviation has been computed:
insert and prune, then classify.  Returns the `StationaryDetectionResult`
together with the successor state. -/
noncomputable def detectStationaryDev (cfg : StationaryConfig) (st : DetectorState)
    (deviation : ℝ) (now : ℤ) : StationaryDetectionResult × DetectorState :=
  let deviationHistory := addDeviationData cfg st.deviationHistory deviation now
  let wasStationary := st.isStationary
  if cfg.minSampleCount ≤ deviationHistory.length then
    let mean := calculateMean deviationHistory
    let std := calculateStandardDeviation deviationHistory
    if mean < cfg.meanThreshold ∧ std < cfg.stdThreshold then
      let stationaryStartTime := st.stationaryStartTime.getD now
      if cfg.stationaryDurationMs ≤ now - stationaryStartTime then
        (⟨true, mean, std, durationOf (some stationaryStartTime) now, !wasStationary⟩,
         ⟨deviationHistory, true, some stationaryStartTime⟩)
      else
        (⟨wasStationary, mean, std, durationOf (some stationaryStartTime) now, false⟩,
         ⟨deviationHistory, wasStationary, some stationaryStartTime⟩)
    else
      (⟨false, mean, std, durationOf none now, wasStationary⟩,
       ⟨deviationHistory, false, none⟩)
  else
    (⟨false, 0, 0, 0, false⟩,
     ⟨deviationHistory, wasStationary, st.stationaryStartTime⟩)

/-- The first two lines of `detectStationary`:
`magnitude = sqrt(x*x + y*y + z*z)`, `deviation = |magnitude - 9.8|`. -/
noncomputable def deviationOf (x y z : ℝ) : ℝ :=
  |Real.sqrt (x * x + y * y + z * z) - 9.8|

/-- Model of `detectStationary(x, y, z)` — compute the deviation of the acceleration
magnitude from gravity and run the classifier. -/
noncomputable def detectStationary (cfg : StationaryConfig) (st : DetectorState)
    (x y z : ℝ) (now : ℤ) : StationaryDetectionResult × DetectorState :=
  detectStationaryDev cfg st (deviationOf x y z) now

/-- Model of `getIsStationary()` — read the current flag, no side effects. -/
def getIsStationary (st : DetectorState) : Bool :=
  st.isStationary

/-- Model of `reset()` — clear history, flag and dwell timer. -/
def reset (_st : DetectorState) : DetectorState :=
  initialState

/-- The constant `GPS_DRIFT_SPEED_THRESHOLD` of `LocationService` (m/s). -/
def GPS_DRIFT_SPEED_THRESHOLD : ℝ := 0.3

/-- The drift signal of the spec: GPS speed together with the stationary flag
at the moment of the fix. -/
structure DriftEvent where
  gpsSpeed : ℝ
  stationary : Bool

/-- The drift decision rule embedded in the `watchPosition` callback of
`LocationService.startWatching`: `speed = position.coords.speed ?? 0`, and a
drift signal is raised iff `stationaryDetector.getIsStationary()` holds and
`speed > GPS_DRIFT_SPEED_THRESHOLD`. -/
noncomputable def onFix (detector : DetectorState) (speedRaw : Option ℝ) :
    Option DriftEvent :=
  let speed := speedRaw.getD 0
  if getIsStationary detector = true ∧ GPS_DRIFT_SPEED_THRESHOLD < speed then
    some ⟨speed, getIsStationary detector⟩
  else
    none

/-- Run a sequence of classifier calls (deviation level): each element of
`inputs` is a `(deviation, now)` pair; returns the final state. -/
noncomputable def runStateDev (cfg : StationaryConfig) (st : DetectorState) :
    List (ℝ × ℤ) → DetectorState
  | [] => st
  | input :: rest =>
      runStateDev cfg (detectStationaryDev cfg st input.1 input.2).2 rest

/-- State after the first `k` calls of `inputs`, starting from `s0`. -/
noncomputable def stateFrom (cfg : StationaryConfig) (s0 : DetectorState)
    (inputs : List (ℝ × ℤ)) (k : ℕ) : DetectorState :=
  runStateDev cfg s0 (inputs.take k)

/-- Result returned by call number `k` (0-indexed) of `inputs`, starting from
`s0`; meaningful for `k < inputs.length`. -/
noncomputable def resultFrom (cfg : StationaryConfig) (s0 : DetectorState)
    (inputs : List (ℝ × ℤ)) (k : ℕ) : StationaryDetectionResult :=
  (detectStationaryDev cfg (stateFrom cfg s0 inputs k)
    (inputs.getD k ((0 : ℝ), (0 : ℤ))).1 (inputs.getD k ((0 : ℝ), (0 : ℤ))).2).1

/-- Call number `k` sees at least `minSampleCount` samples in the window after
its insertion and pruning. -/
def fullFrom (cfg : StationaryConfig) (s0 : DetectorState)
    (inputs : List (ℝ × ℤ)) (k : ℕ) : Prop :=
  cfg.minSampleCount ≤ (stateFrom cfg s0 inputs (k + 1)).deviationHistory.length

/-- The neutral result returned while fewer than `minSampleCount` samples are
in the window. -/
def neutralResult : StationaryDetectionResult :=
  ⟨false, 0, 0, 0, false⟩

/-- A configuration whose mean threshold is 0: the quiet predicate
`mean < meanThreshold` is then unsatisfiable even for perfectly still input. -/
def cfgZeroMean : StationaryConfig := ⟨2000, 0, 0.2, 0, 1⟩

/-- Three zero-deviation samples at 0 ms, 1 ms, 2 ms. -/
def zeroInputs3 : List (ℝ × ℤ) := [(0, 0), (0, 1), (0, 2)]

/-- A small configuration with the default thresholds, a one-sample window and
a zero dwell requirement, for concrete witnesses. -/
def cfgUnit : StationaryConfig := ⟨2000, 0.3, 0.2, 0, 1⟩

/-- Two zero-deviation samples at 0 ms and 1 ms. -/
def zeroInputs2 : List (ℝ × ℤ) := [(0, 0), (0, 1)]

/-- Default thresholds with a two-sample minimum. -/
def cfgMin2 : StationaryConfig := ⟨2000, 0.3, 0.2, 2000, 2⟩

/-- A 10 ms retention window, two-sample minimum: pruning can empty the window
between sparse calls. -/
def cfgShort : StationaryConfig := ⟨10, 0.3, 0.2, 0, 2⟩

/-- Default configuration except for a one-sample minimum: the 2000 ms dwell
requirement is active. -/
def cfgDwell : StationaryConfig := ⟨2000, 0.3, 0.2, 2000, 1⟩

/-- Two zero-deviation samples separated by exactly the default dwell time. -/
def dwellInputs : List (ℝ × ℤ) := [(0, 0), (0, 2000)]

/-- A single zero-deviation sample at 5 ms. -/
def zeroInputs1 : List (ℝ × ℤ) := [(0, 5)]

/-- A state in mid-dwell: timer set at 3 ms, not yet stationary. -/
def stTimer : DetectorState := ⟨[], false, some 3⟩

/-- A stationary state with an empty window. -/
def stC3 : DetectorState := ⟨[], true, some 5⟩

/-- A moving state holding one old sample from time 0. -/
def stC8 : DetectorState := ⟨[⟨0, 0⟩], false, none⟩

/-- A stationary state holding one old sample from time 0. -/
def stC9 : DetectorState := ⟨[⟨0, 0⟩], true, some 0⟩

/-! ## Branch characterizations of `detectStationaryDev` -/

theorem detect_insufficient {cfg : StationaryConfig} {st : DetectorState}
    {deviation : ℝ} {now : ℤ}
    (h : (addDeviationData cfg st.deviationHistory deviation now).length <
      cfg.minSampleCount) :
    detectStationaryDev cfg st deviation now =
      (neutralResult,
       ⟨addDeviationData cfg st.deviationHistory deviation now,
        st.isStationary, st.stationaryStartTime⟩) := by
  simp only [detectStationaryDev, neutralResult]
  rw [if_neg (not_le.mpr h)]

theorem detect_notQuiet {cfg : StationaryConfig} {st : DetectorState}
    {deviation : ℝ} {now : ℤ}
    (hfull : cfg.minSampleCount ≤
      (addDeviationData cfg st.deviationHistory deviation now).length)
    (hq : ¬(calculateMean (addDeviationData cfg st.deviationHistory deviation now) <
        cfg.meanThreshold ∧
      calculateStandardDeviation (addDeviationData cfg st.deviationHistory deviation now) <
        cfg.stdThreshold)) :
    detectStationaryDev cfg st deviation now =
      (⟨false,
        calculateMean (addDeviationData cfg st.deviationHistory deviation now),
        calculateStandardDeviation (addDeviationData cfg st.deviationHistory deviation now),
        0, st.isStationary⟩,
       ⟨addDeviationData cfg st.deviationHistory deviation now, false, none⟩) := by
  simp only [detectStationaryDev]
  rw [if_pos hfull, if_neg hq]
  rfl

theorem detect_quiet_go {cfg : StationaryConfig} {st : DetectorState}
    {deviation : ℝ} {now : ℤ}
    (hfull : cfg.minSampleCount ≤
      (addDeviationData cfg st.deviationHistory deviation now).length)
    (hq : calculateMean (addDeviationData cfg st.deviationHistory deviation now) <
        cfg.meanThreshold ∧
      calculateStandardDeviation (addDeviationData cfg st.deviationHistory deviation now) <
        cfg.stdThreshold)
    (hd : cfg.stationaryDurationMs ≤ now - st.stationaryStartTime.getD now) :
    detectStationaryDev cfg st deviation now =
      (⟨true,
        calculateMean (addDeviationData cfg st.deviationHistory deviation now),
        calculateStandardDeviation (addDeviationData cfg st.deviationHistory deviation now),
        durationOf (some (st.stationaryStartTime.getD now)) now, !st.isStationary⟩,
       ⟨addDeviationData cfg st.deviationHistory deviation now, true,
        some (st.stationaryStartTime.getD now)⟩) := by
  simp only [detectStationaryDev]
  rw [if_pos hfull, if_pos hq, if_pos hd]

theorem detect_quiet_wait {cfg : StationaryConfig} {st : DetectorState}
    {deviation : ℝ} {now : ℤ}
    (hfull : cfg.minSampleCount ≤
      (addDeviationData cfg st.deviationHistory deviation now).length)
    (hq : calculateMean (addDeviationData cfg st.deviationHistory deviation now) <
        cfg.meanThreshold ∧
      calculateStandardDeviation (addDeviationData cfg st.deviationHistory deviation now) <
        cfg.stdThreshold)
    (hd : ¬ cfg.stationaryDurationMs ≤ now - st.stationaryStartTime.getD now) :
    detectStationaryDev cfg st deviation now =
      (⟨st.isStationary,
        calculateMean (addDeviationData cfg st.deviationHistory deviation now),
        calculateStandardDeviation (addDeviationData cfg st.deviationHistory deviation now),
        durationOf (some (st.stationaryStartTime.getD now)) now, false⟩,
       ⟨addDeviationData cfg st.deviationHistory deviation now, st.isStationary,
        some (st.stationaryStartTime.getD now)⟩) := by
  simp only [detectStationaryDev]
  rw [if_pos hfull, if_pos hq, if_neg hd]

/-- In every branch the successor history is exactly the inserted-and-pruned
window. -/
theorem detect_history (cfg : StationaryConfig) (st : DetectorState)
    (deviation : ℝ) (now : ℤ) :
    (detectStationaryDev cfg st deviation now).2.deviationHistory =
      addDeviationData cfg st.deviationHistory deviation now := by
  simp only [detectStationaryDev]
  split_ifs <;> rfl

theorem addDeviationData_length_le (cfg : StationaryConfig)
    (history : List DeviationData) (deviation : ℝ) (now : ℤ) :
    (addDeviationData cfg history deviation now).length ≤ history.length + 1 := by
  calc (addDeviationData cfg history deviation now).length
      ≤ (history ++ [({ value := deviation, timestamp := now } : DeviationData)]).length :=
        List.length_filter_le _ _
    _ = history.length + 1 := by simp

/-! ## Statistics of an all-zero window -/

theorem calculateMean_allZero {history : List DeviationData}
    (h : ∀ d ∈ history, d.value = 0) : calculateMean history = 0 := by
  unfold calculateMean
  split_ifs with h0
  · rfl
  · rw [List.sum_eq_zero, zero_div]
    intro x hx
    simp only [List.mem_map] at hx
    obtain ⟨d, hd, rfl⟩ := hx
    exact h d hd

theorem calculateStandardDeviation_allZero {history : List DeviationData}
    (h : ∀ d ∈ history, d.value = 0) : calculateStandardDeviation history = 0 := by
  unfold calculateStandardDeviation
  split_ifs with h0
  · rfl
  · rw [List.sum_eq_zero, zero_div, Real.sqrt_zero]
    intro x hx
    simp only [List.mem_map] at hx
    obtain ⟨d, hd, rfl⟩ := hx
    rw [h d hd, calculateMean_allZero h]
    ring

theorem addDeviationData_allZero {cfg : StationaryConfig}
    {history : List DeviationData} {deviation : ℝ} {now : ℤ}
    (h : ∀ d ∈ history, d.value = 0) (hdev : deviation = 0) :
    ∀ d ∈ addDeviationData cfg history deviation now, d.value = 0 := by
  intro d hd
  unfold addDeviationData at hd
  rcases List.mem_append.mp (List.mem_of_mem_filter hd) with h1 | h2
  · exact h d h1
  · simp only [List.mem_singleton] at h2
    subst h2
    exact hdev

/-! ## Run lemmas -/

theorem runStateDev_append (cfg : StationaryConfig) (s0 : DetectorState)
    (l1 l2 : List (ℝ × ℤ)) :
    runStateDev cfg s0 (l1 ++ l2) = runStateDev cfg (runStateDev cfg s0 l1) l2 := by
  induction l1 generalizing s0 with
  | nil => rfl
  | cons a l ih => simp [runStateDev, ih]

theorem stateFrom_zero (cfg : StationaryConfig) (s0 : DetectorState)
    (inputs : List (ℝ × ℤ)) : stateFrom cfg s0 inputs 0 = s0 := rfl

theorem stateFrom_succ {cfg : StationaryConfig} {s0 : DetectorState}
    {inputs : List (ℝ × ℤ)} {k : ℕ} (hk : k < inputs.length) :
    stateFrom cfg s0 inputs (k + 1) =
      (detectStationaryDev cfg (stateFrom cfg s0 inputs k)
        (inputs.getD k ((0 : ℝ), (0 : ℤ))).1
        (inputs.getD k ((0 : ℝ), (0 : ℤ))).2).2 := by
  unfold stateFrom
  rw [List.take_succ, runStateDev_append]
  rw [List.getElem?_eq_getElem hk, List.getD_eq_getElem _ _ hk]
  rfl

theorem quiet_of_allZero {cfg : StationaryConfig} {history : List DeviationData}
    (hmt : 0 < cfg.meanThreshold) (hstd : 0 < cfg.stdThreshold)
    (hz : ∀ d ∈ history, d.value = 0) :
    calculateMean history < cfg.meanThreshold ∧
      calculateStandardDeviation history < cfg.stdThreshold := by
  rw [calculateMean_allZero hz, calculateStandardDeviation_allZero hz]
  exact ⟨hmt, hstd⟩

theorem getD_mem {α : Type} {l : List α} {k : ℕ} (hk : k < l.length) (d : α) :
    l.getD k d ∈ l := by
  rw [List.getD_eq_getElem _ _ hk]
  exact List.getElem_mem hk

theorem stateFrom_of_length_le {cfg : StationaryConfig} {s0 : DetectorState}
    {inputs : List (ℝ × ℤ)} {k : ℕ} (h : inputs.length ≤ k) :
    stateFrom cfg s0 inputs k = runStateDev cfg s0 inputs := by
  unfold stateFrom
  rw [List.take_of_length_le h]

/-- A zero-deviation call on an already-stationary detector with an all-zero
window never reports a state change and keeps the flag true. -/
theorem detect_zero_stationary_step {cfg : StationaryConfig} {st : DetectorState}
    {now : ℤ} (hmt : 0 < cfg.meanThreshold) (hstd : 0 < cfg.stdThreshold)
    (hz : ∀ d ∈ st.deviationHistory, d.value = 0) (hflag : st.isStationary = true) :
    (detectStationaryDev cfg st 0 now).1.stateChanged = false ∧
      (detectStationaryDev cfg st 0 now).2.isStationary = true := by
  by_cases hfull : cfg.minSampleCount ≤
      (addDeviationData cfg st.deviationHistory 0 now).length
  · have hz' := @addDeviationData_allZero cfg _ _ now hz rfl
    have hq := quiet_of_allZero hmt hstd hz'
    by_cases hd : cfg.stationaryDurationMs ≤ now - st.stationaryStartTime.getD now
    · rw [detect_quiet_go hfull hq hd]
      simp [hflag]
    · rw [detect_quiet_wait hfull hq hd]
      simp [hflag]
  · rw [detect_insufficient (not_le.mp hfull)]
    simp [neutralResult, hflag]

/-- Once the detector is stationary with an all-zero window, a run of
zero-deviation inputs keeps it stationary with an all-zero window. -/
theorem stateFrom_stationary_persist {cfg : StationaryConfig} {s0 : DetectorState}
    {inputs : List (ℝ × ℤ)}
    (hmt : 0 < cfg.meanThreshold) (hstd : 0 < cfg.stdThreshold)
    (hin : ∀ p ∈ inputs, p.1 = 0) (j : ℕ)
    (hj : (stateFrom cfg s0 inputs j).isStationary = true)
    (hzj : ∀ d ∈ (stateFrom cfg s0 inputs j).deviationHistory, d.value = 0) :
    ∀ k, j ≤ k → (stateFrom cfg s0 inputs k).isStationary = true ∧
      ∀ d ∈ (stateFrom cfg s0 inputs k).deviationHistory, d.value = 0 := by
  intro k
  induction k with
  | zero =>
      intro hk
      have : j = 0 := Nat.le_zero.mp hk
      subst this
      exact ⟨hj, hzj⟩
  | succ k ih =>
      intro hk
      rcases Nat.lt_or_ge j (k + 1) with hlt | hge
      · have hjk : j ≤ k := Nat.lt_succ_iff.mp hlt
        obtain ⟨ihflag, ihz⟩ := ih hjk
        rcases Nat.lt_or_ge k inputs.length with hklen | hklen
        · have hdev0 : (inputs.getD k ((0 : ℝ), (0 : ℤ))).1 = 0 :=
            hin _ (getD_mem hklen _)
          rw [stateFrom_succ hklen, hdev0]
          refine ⟨(detect_zero_stationary_step hmt hstd ihz ihflag).2, ?_⟩
          rw [detect_history]
          exact addDeviationData_allZero ihz rfl
        · rw [stateFrom_of_length_le (le_trans hklen (Nat.le_succ k))]
          rw [stateFrom_of_length_le hklen] at ihflag ihz
          exact ⟨ihflag, ihz⟩
      · have : j = k + 1 := le_antisymm hk hge
        subst this
        exact ⟨hj, hzj⟩

/-- The history of every state along a zero-deviation run is all-zero. -/
theorem stateFrom_allZero {cfg : StationaryConfig} {s0 : DetectorState}
    {inputs : List (ℝ × ℤ)}
    (h0 : ∀ d ∈ s0.deviationHistory, d.value = 0)
    (hin : ∀ p ∈ inputs, p.1 = 0) :
    ∀ k, ∀ d ∈ (stateFrom cfg s0 inputs k).deviationHistory, d.value = 0 := by
  intro k
  induction k with
  | zero => exact h0
  | succ k ih =>
      rcases Nat.lt_or_ge k inputs.length with hklen | hklen
      · have hdev0 : (inputs.getD k ((0 : ℝ), (0 : ℤ))).1 = 0 :=
          hin _ (getD_mem hklen _)
        rw [stateFrom_succ hklen, detect_history, hdev0]
        exact addDeviationData_allZero ih rfl
      · rw [stateFrom_of_length_le (le_trans hklen (Nat.le_succ k))]
        rw [stateFrom_of_length_le hklen] at ih
        exact ih

theorem fullFrom_iff {cfg : StationaryConfig} {s0 : DetectorState}
    {inputs : List (ℝ × ℤ)} {k : ℕ} (hk : k < inputs.length) :
    fullFrom cfg s0 inputs k ↔
      cfg.minSampleCount ≤
        (addDeviationData cfg (stateFrom cfg s0 inputs k).deviationHistory
          (inputs.getD k ((0 : ℝ), (0 : ℤ))).1
          (inputs.getD k ((0 : ℝ), (0 : ℤ))).2).length := by
  unfold fullFrom
  rw [stateFrom_succ hk, detect_history]

/-- While every call is short of `minSampleCount` samples, the flag and the
dwell timer keep their initial values. -/
theorem stateFrom_pending {cfg : StationaryConfig} {s0 : DetectorState}
    {inputs : List (ℝ × ℤ)} {k₀ : ℕ} (hk0len : k₀ ≤ inputs.length)
    (hnotfull : ∀ i < k₀, ¬ fullFrom cfg s0 inputs i) :
    ∀ k ≤ k₀, (stateFrom cfg s0 inputs k).isStationary = s0.isStationary ∧
      (stateFrom cfg s0 inputs k).stationaryStartTime = s0.stationaryStartTime := by
  intro k
  induction k with
  | zero => exact fun _ => ⟨rfl, rfl⟩
  | succ k ih =>
      intro hk
      have hklt : k < k₀ := hk
      have hklen : k < inputs.length := lt_of_lt_of_le hklt hk0len
      obtain ⟨ihf, ihs⟩ := ih (le_of_lt hklt)
      have hnf := hnotfull k hklt
      rw [fullFrom_iff hklen] at hnf
      rw [stateFrom_succ hklen, detect_insufficient (not_le.mp hnf)]
      exact ⟨ihf, ihs⟩

/-- During the dwell interval of an all-zero run — the timer set to `t₀`, every
intervening call either short of samples or short of the dwell duration — the
flag stays false and the timer stays `t₀`. -/
theorem stateFrom_dwell_segment {cfg : StationaryConfig} {s0 : DetectorState}
    {inputs : List (ℝ × ℤ)} {k₀ j₀ : ℕ} {t₀ : ℤ}
    (hmt : 0 < cfg.meanThreshold) (hstd : 0 < cfg.stdThreshold)
    (hin : ∀ p ∈ inputs, p.1 = 0)
    (h0 : ∀ d ∈ s0.deviationHistory, d.value = 0)
    (hj0len : j₀ ≤ inputs.length)
    (hbase : (stateFrom cfg s0 inputs (k₀ + 1)).isStationary = false ∧
      (stateFrom cfg s0 inputs (k₀ + 1)).stationaryStartTime = some t₀)
    (hnogo : ∀ l, k₀ < l → l < j₀ → fullFrom cfg s0 inputs l →
      ¬ cfg.stationaryDurationMs ≤ (inputs.getD l ((0 : ℝ), (0 : ℤ))).2 - t₀) :
    ∀ k, k₀ + 1 ≤ k → k ≤ j₀ →
      (stateFrom cfg s0 inputs k).isStationary = false ∧
      (stateFrom cfg s0 inputs k).stationaryStartTime = some t₀ := by
  intro k hk1
  induction k, hk1 using Nat.le_induction with
  | base => exact fun _ => hbase
  | succ k hk ih =>
      intro hkj
      have hklt : k < j₀ := hkj
      have hklen : k < inputs.length := lt_of_lt_of_le hklt hj0len
      obtain ⟨ihf, ihs⟩ := ih (le_of_lt hklt)
      have hdev0 : (inputs.getD k ((0 : ℝ), (0 : ℤ))).1 = 0 :=
        hin _ (getD_mem hklen _)
      by_cases hfull : fullFrom cfg s0 inputs k
      · have hz := @stateFrom_allZero cfg _ _ h0 hin k
        have hq := quiet_of_allZero hmt hstd
          (@addDeviationData_allZero cfg _ _
            (inputs.getD k ((0 : ℝ), (0 : ℤ))).2 hz hdev0)
        have hfull' := (fullFrom_iff hklen).mp hfull
        rw [hdev0] at hfull' hq
        have hd : ¬ cfg.stationaryDurationMs ≤
            (inputs.getD k ((0 : ℝ), (0 : ℤ))).2 -
              (stateFrom cfg s0 inputs k).stationaryStartTime.getD
                (inputs.getD k ((0 : ℝ), (0 : ℤ))).2 := by
          rw [ihs]
          exact hnogo k hk hklt hfull
        rw [stateFrom_succ hklen, hdev0, detect_quiet_wait hfull' hq hd]
        refine ⟨ihf, ?_⟩
        rw [ihs]
        rfl
      · have hnf := (not_iff_not.mpr (fullFrom_iff hklen)).mp hfull
        rw [stateFrom_succ hklen, detect_insufficient (not_le.mp hnf)]
        exact ⟨ihf, ihs⟩

theorem resultFrom_eq (cfg : StationaryConfig) (s0 : DetectorState)
    (inputs : List (ℝ × ℤ)) (l : ℕ) :
    resultFrom cfg s0 inputs l =
      (detectStationaryDev cfg (stateFrom cfg s0 inputs l)
        (inputs.getD l ((0 : ℝ), (0 : ℤ))).1
        (inputs.getD l ((0 : ℝ), (0 : ℤ))).2).1 := rfl

theorem initialState_allZero : ∀ d ∈ initialState.deviationHistory, d.value = 0 := by
  intro d hd
  exact absurd hd (List.not_mem_nil d)

/-- Claim C2, amended with positive thresholds.  First conjunct: a sample of
magnitude exactly 9.8 reduces to a zero-deviation call.  Second conjunct: on a
run of zero-deviation inputs from the initial state, if `k₀` is the first call
with a full window and `j₀` the first full-window call at least
`stationaryDurationMs` after it, then call `j₀` reports `isStationary = true`
with `stateChanged = true`, and every other call of the run reports
`stateChanged = false`. -/
theorem claim_c2_amended_thm (cfg : StationaryConfig)
    (hmt : 0 < cfg.meanThreshold) (hstd : 0 < cfg.stdThreshold) :
    (∀ (st : DetectorState) (x y z : ℝ) (now : ℤ),
        x * x + y * y + z * z = 9.8 * 9.8 →
        detectStationary cfg st x y z now = detectStationaryDev cfg st 0 now) ∧
    (∀ (inputs : List (ℝ × ℤ)) (k₀ j₀ : ℕ),
      (∀ p ∈ inputs, p.1 = 0) →
      fullFrom cfg initialState inputs k₀ →
      (∀ i < k₀, ¬ fullFrom cfg initialState inputs i) →
      k₀ ≤ j₀ → j₀ < inputs.length →
      fullFrom cfg initialState inputs j₀ →
      cfg.stationaryDurationMs ≤
        (inputs.getD j₀ ((0 : ℝ), (0 : ℤ))).2 -
          (inputs.getD k₀ ((0 : ℝ), (0 : ℤ))).2 →
      (∀ l, k₀ ≤ l → l < j₀ →
        ¬ (fullFrom cfg initialState inputs l ∧
          cfg.stationaryDurationMs ≤
            (inputs.getD l ((0 : ℝ), (0 : ℤ))).2 -
              (inputs.getD k₀ ((0 : ℝ), (0 : ℤ))).2)) →
      (resultFrom cfg initialState inputs j₀).isStationary = true ∧
      (resultFrom cfg initialState inputs j₀).stateChanged = true ∧
      (∀ l < j₀, (resultFrom cfg initialState inputs l).stateChanged = false) ∧
      (∀ l, j₀ < l → l < inputs.length →
        (resultFrom cfg initialState inputs l).stateChanged = false)) := by
  constructor
  · intro st x y z now hmag
    unfold detectStationary deviationOf
    rw [hmag, Real.sqrt_mul_self (by norm_num : (0 : ℝ) ≤ 9.8), sub_self, abs_zero]
  intro inputs k₀ j₀ hin hk0full hk0first hk0j hj0len hj0full hj0d hj0first
  have hk0len : k₀ < inputs.length := lt_of_le_of_lt hk0j hj0len
  have hdev0 : ∀ l, l < inputs.length → (inputs.getD l ((0 : ℝ), (0 : ℤ))).1 = 0 :=
    fun l hl => hin _ (getD_mem hl _)
  have hzall := @stateFrom_allZero cfg _ _ initialState_allZero hin
  suffices hmain :
      ((resultFrom cfg initialState inputs j₀).isStationary = true ∧
       (resultFrom cfg initialState inputs j₀).stateChanged = true ∧
       (stateFrom cfg initialState inputs (j₀ + 1)).isStationary = true) ∧
      (∀ l < j₀, (resultFrom cfg initialState inputs l).stateChanged = false) by
    obtain ⟨⟨h1, h2, htrue⟩, h3⟩ := hmain
    refine ⟨h1, h2, h3, ?_⟩
    intro l hl hllen
    have hpersist := stateFrom_stationary_persist hmt hstd hin (j₀ + 1) htrue
      (hzall (j₀ + 1)) l hl
    rw [resultFrom_eq, hdev0 l hllen]
    exact (detect_zero_stationary_step hmt hstd hpersist.2 hpersist.1).1
  rcases eq_or_lt_of_le hk0j with rfl | hklt
  · -- the dwell elapses at the very first full-window call
    have hpk := stateFrom_pending (le_of_lt hk0len) hk0first k₀ le_rfl
    have hpkf : (stateFrom cfg initialState inputs k₀).isStationary = false := by
      rw [hpk.1]; rfl
    have hpks : (stateFrom cfg initialState inputs k₀).stationaryStartTime = none := by
      rw [hpk.2]; rfl
    have hfullk := (fullFrom_iff hk0len).mp hk0full
    have hqk := quiet_of_allZero hmt hstd
      (@addDeviationData_allZero cfg _ _
        (inputs.getD k₀ ((0 : ℝ), (0 : ℤ))).2 (hzall k₀) (hdev0 k₀ hk0len))
    have hgo : cfg.stationaryDurationMs ≤
        (inputs.getD k₀ ((0 : ℝ), (0 : ℤ))).2 -
          (stateFrom cfg initialState inputs k₀).stationaryStartTime.getD
            (inputs.getD k₀ ((0 : ℝ), (0 : ℤ))).2 := by
      rw [hpks, Option.getD_none]
      exact hj0d
    refine ⟨⟨?_, ?_, ?_⟩, ?_⟩
    · rw [resultFrom_eq, detect_quiet_go hfullk hqk hgo]
    · rw [resultFrom_eq, detect_quiet_go hfullk hqk hgo, hpkf]
      rfl
    · rw [stateFrom_succ hk0len, detect_quiet_go hfullk hqk hgo]
    · intro l hl
      have hllen : l < inputs.length := lt_trans hl hk0len
      have hnf := (not_iff_not.mpr (fullFrom_iff hllen)).mp (hk0first l hl)
      rw [resultFrom_eq, detect_insufficient (not_le.mp hnf)]
      rfl
  · -- the dwell elapses strictly after the first full-window call
    have hpk := stateFrom_pending (le_of_lt hk0len) hk0first k₀ le_rfl
    have hpkf : (stateFrom cfg initialState inputs k₀).isStationary = false := by
      rw [hpk.1]; rfl
    have hpks : (stateFrom cfg initialState inputs k₀).stationaryStartTime = none := by
      rw [hpk.2]; rfl
    have hfullk := (fullFrom_iff hk0len).mp hk0full
    have hqk := quiet_of_allZero hmt hstd
      (@addDeviationData_allZero cfg _ _
        (inputs.getD k₀ ((0 : ℝ), (0 : ℤ))).2 (hzall k₀) (hdev0 k₀ hk0len))
    have hdk : ¬ cfg.stationaryDurationMs ≤
        (inputs.getD k₀ ((0 : ℝ), (0 : ℤ))).2 -
          (stateFrom cfg initialState inputs k₀).stationaryStartTime.getD
            (inputs.getD k₀ ((0 : ℝ), (0 : ℤ))).2 := by
      rw [hpks, Option.getD_none]
      intro hc
      exact hj0first k₀ le_rfl hklt ⟨hk0full, hc⟩
    have hbase : (stateFrom cfg initialState inputs (k₀ + 1)).isStationary = false ∧
        (stateFrom cfg initialState inputs (k₀ + 1)).stationaryStartTime =
          some (inputs.getD k₀ ((0 : ℝ), (0 : ℤ))).2 := by
      rw [stateFrom_succ hk0len, detect_quiet_wait hfullk hqk hdk]
      refine ⟨hpkf, ?_⟩
      show some ((stateFrom cfg initialState inputs k₀).stationaryStartTime.getD
        (inputs.getD k₀ ((0 : ℝ), (0 : ℤ))).2) = _
      rw [hpks, Option.getD_none]
    have hnogo : ∀ l, k₀ < l → l < j₀ → fullFrom cfg initialState inputs l →
        ¬ cfg.stationaryDurationMs ≤
          (inputs.getD l ((0 : ℝ), (0 : ℤ))).2 -
            (inputs.getD k₀ ((0 : ℝ), (0 : ℤ))).2 :=
      fun l h1 h2 hfull hd => hj0first l (le_of_lt h1) h2 ⟨hfull, hd⟩
    have hdw := stateFrom_dwell_segment hmt hstd hin initialState_allZero
      (le_of_lt hj0len) hbase hnogo
    have hdwj := hdw j₀ hklt le_rfl
    have hfullj := (fullFrom_iff hj0len).mp hj0full
    have hqj := quiet_of_allZero hmt hstd
      (@addDeviationData_allZero cfg _ _
        (inputs.getD j₀ ((0 : ℝ), (0 : ℤ))).2 (hzall j₀) (hdev0 j₀ hj0len))
    have hgo : cfg.stationaryDurationMs ≤
        (inputs.getD j₀ ((0 : ℝ), (0 : ℤ))).2 -
          (stateFrom cfg initialState inputs j₀).stationaryStartTime.getD
            (inputs.getD j₀ ((0 : ℝ), (0 : ℤ))).2 := by
      rw [hdwj.2, Option.getD_some]
      exact hj0d
    refine ⟨⟨?_, ?_, ?_⟩, ?_⟩
    · rw [resultFrom_eq, detect_quiet_go hfullj hqj hgo]
    · rw [resultFrom_eq, detect_quiet_go hfullj hqj hgo, hdwj.1]
      rfl
    · rw [stateFrom_succ hj0len, detect_quiet_go hfullj hqj hgo]
    · intro l hl
      have hllen : l < inputs.length := lt_trans hl hj0len
      rcases lt_trichotomy l k₀ with hlk | rfl | hlk
      · have hnf := (not_iff_not.mpr (fullFrom_iff hllen)).mp (hk0first l hlk)
        rw [resultFrom_eq, detect_insufficient (not_le.mp hnf)]
        rfl
      · rw [resultFrom_eq, detect_quiet_wait hfullk hqk hdk]
      · have hdwl := hdw l hlk (le_of_lt hl)
        by_cases hfull : fullFrom cfg initialState inputs l
        · have hfull' := (fullFrom_iff hllen).mp hfull
          have hql := quiet_of_allZero hmt hstd
            (@addDeviationData_allZero cfg _ _
              (inputs.getD l ((0 : ℝ), (0 : ℤ))).2 (hzall l) (hdev0 l hllen))
          have hdl : ¬ cfg.stationaryDurationMs ≤
              (inputs.getD l ((0 : ℝ), (0 : ℤ))).2 -
                (stateFrom cfg initialState inputs l).stationaryStartTime.getD
                  (inputs.getD l ((0 : ℝ), (0 : ℤ))).2 := by
            rw [hdwl.2, Option.getD_some]
            exact hnogo l hlk hl hfull
          rw [resultFrom_eq, detect_quiet_wait hfull' hql hdl]
        · have hnf := (not_iff_not.mpr (fullFrom_iff hllen)).mp hfull
          rw [resultFrom_eq, detect_insufficient (not_le.mp hnf)]
          rfl

/-- The freshly inserted sample always survives the pruning filter when the
retention window is nonnegative, so the window is never empty right after a
call. -/
theorem addDeviationData_length_pos {cfg : StationaryConfig}
    (hdur : 0 ≤ cfg.historyDurationMs) (history : List DeviationData)
    (deviation : ℝ) (now : ℤ) :
    1 ≤ (addDeviationData cfg history deviation now).length := by
  have hmem : ({ value := deviation, timestamp := now } : DeviationData) ∈
      addDeviationData cfg history deviation now := by
    unfold addDeviationData
    rw [List.mem_filter]
    refine ⟨List.mem_append_right _ (List.mem_singleton_self _), ?_⟩
    simpa using hdur
  exact List.length_pos.mpr (List.ne_nil_of_mem hmem)

/-- With a nonpositive mean threshold, an all-zero window can never satisfy
the quiet condition (the comparison is strict). -/
theorem notQuiet_of_allZero_zeroThreshold {cfg : StationaryConfig}
    {history : List DeviationData} (hmt : cfg.meanThreshold ≤ 0)
    (hz : ∀ d ∈ history, d.value = 0) :
    ¬ (calculateMean history < cfg.meanThreshold ∧
      calculateStandardDeviation history < cfg.stdThreshold) := by
  rw [calculateMean_allZero hz]
  rintro ⟨h1, -⟩
  exact absurd (lt_of_lt_of_le h1 hmt) (lt_irrefl 0)

/-- Claim C2 counterexample: with `meanThreshold = 0`, three zero-deviation samples
(count at least `minSampleCount = 1`, spanning 2 ms, longer than
`stationaryDurationMs = 0`) never make the detector stationary — the quiet
predicate uses a strict comparison, so `mean = 0 < 0` fails and every call
takes the not-quiet branch. -/
theorem claim_c2_counterexample :
    cfgZeroMean.minSampleCount ≤ zeroInputs3.length ∧
    cfgZeroMean.stationaryDurationMs < 2 - 0 ∧
    (resultFrom cfgZeroMean initialState zeroInputs3 0).isStationary = false ∧
    (resultFrom cfgZeroMean initialState zeroInputs3 0).stateChanged = false ∧
    (resultFrom cfgZeroMean initialState zeroInputs3 1).isStationary = false ∧
    (resultFrom cfgZeroMean initialState zeroInputs3 1).stateChanged = false ∧
    (resultFrom cfgZeroMean initialState zeroInputs3 2).isStationary = false ∧
    (resultFrom cfgZeroMean initialState zeroInputs3 2).stateChanged = false ∧
    (stateFrom cfgZeroMean initialState zeroInputs3 3).isStationary = false ∧
    (stateFrom cfgZeroMean initialState zeroInputs3 3).stationaryStartTime = none := by
  have hin : ∀ p ∈ zeroInputs3, p.1 = 0 := by
    intro p hp
    simp only [zeroInputs3, List.mem_cons, List.not_mem_nil, or_false] at hp
    rcases hp with h | h | h <;> rw [h]
  have hzall := @stateFrom_allZero cfgZeroMean _ _ initialState_allZero hin
  have hdev0 : ∀ k, k < zeroInputs3.length →
      (zeroInputs3.getD k ((0 : ℝ), (0 : ℤ))).1 = 0 :=
    fun k hk => hin _ (getD_mem hk _)
  have hstep : ∀ (st : DetectorState) (now : ℤ),
      (∀ d ∈ st.deviationHistory, d.value = 0) →
      detectStationaryDev cfgZeroMean st 0 now =
        (⟨false,
          calculateMean (addDeviationData cfgZeroMean st.deviationHistory 0 now),
          calculateStandardDeviation (addDeviationData cfgZeroMean st.deviationHistory 0 now),
          0, st.isStationary⟩,
         ⟨addDeviationData cfgZeroMean st.deviationHistory 0 now, false, none⟩) := by
    intro st now hz
    exact detect_notQuiet
      (addDeviationData_length_pos (by decide) st.deviationHistory 0 now)
      (notQuiet_of_allZero_zeroThreshold le_rfl
        (addDeviationData_allZero hz rfl))
  have hflag : ∀ k, k < zeroInputs3.length →
      (stateFrom cfgZeroMean initialState zeroInputs3 (k + 1)).isStationary = false ∧
      (stateFrom cfgZeroMean initialState zeroInputs3 (k + 1)).stationaryStartTime =
        none := by
    intro k hk
    rw [stateFrom_succ hk, hdev0 k hk, hstep _ _ (hzall k)]
    exact ⟨rfl, rfl⟩
  have hres : ∀ k, k < zeroInputs3.length →
      (resultFrom cfgZeroMean initialState zeroInputs3 k).isStationary = false ∧
      (resultFrom cfgZeroMean initialState zeroInputs3 k).stateChanged =
        (stateFrom cfgZeroMean initialState zeroInputs3 k).isStationary := by
    intro k hk
    rw [resultFrom_eq, hdev0 k hk, hstep _ _ (hzall k)]
    exact ⟨rfl, rfl⟩
  refine ⟨by decide, by decide, ?_, ?_, ?_, ?_, ?_, ?_, ?_, ?_⟩
  · exact (hres 0 (by decide)).1
  · rw [(hres 0 (by decide)).2]; rfl
  · exact (hres 1 (by decide)).1
  · rw [(hres 1 (by decide)).2]; exact (hflag 0 (by decide)).1
  · exact (hres 2 (by decide)).1
  · rw [(hres 2 (by decide)).2]; exact (hflag 1 (by decide)).1
  · exact (hflag 2 (by decide)).1
  · exact (hflag 2 (by decide)).2

/-- Witness for the amended C2: with default thresholds, a one-sample window
and a zero dwell, two zero-deviation samples make the very first call the
transition (stateChanged once), and the second call reports no change. -/
theorem claim_c2_witness :
    (0 : ℝ) < cfgUnit.meanThreshold ∧ (0 : ℝ) < cfgUnit.stdThreshold ∧
    (resultFrom cfgUnit initialState zeroInputs2 0).isStationary = true ∧
    (resultFrom cfgUnit initialState zeroInputs2 0).stateChanged = true ∧
    (resultFrom cfgUnit initialState zeroInputs2 1).stateChanged = false := by
  have hmt : (0 : ℝ) < cfgUnit.meanThreshold := by norm_num [cfgUnit]
  have hstd : (0 : ℝ) < cfgUnit.stdThreshold := by norm_num [cfgUnit]
  have hin : ∀ p ∈ zeroInputs2, p.1 = 0 := by
    intro p hp
    simp only [zeroInputs2, List.mem_cons, List.not_mem_nil, or_false] at hp
    rcases hp with h | h <;> rw [h]
  have h0len : 0 < zeroInputs2.length := by decide
  have hfull0 : fullFrom cfgUnit initialState zeroInputs2 0 :=
    (fullFrom_iff h0len).mpr (addDeviationData_length_pos (by decide) _ _ _)
  have happ := (claim_c2_amended_thm cfgUnit hmt hstd).2 zeroInputs2 0 0 hin hfull0
    (fun i hi => absurd hi (Nat.not_lt_zero i)) le_rfl (by decide) hfull0
    (by decide) (fun l h1 h2 => absurd (lt_of_le_of_lt h1 h2) (lt_irrefl 0))
  exact ⟨hmt, hstd, happ.1, happ.2.1, happ.2.2.2 1 (by decide) (by decide)⟩

/-! ## Concrete evaluation helpers -/

theorem deviationOf_zero : deviationOf 0 0 0 = 9.8 := by
  unfold deviationOf
  rw [show (0 : ℝ) * 0 + 0 * 0 + 0 * 0 = 0 by ring, Real.sqrt_zero, zero_sub,
    abs_neg, abs_of_nonneg (by norm_num : (0 : ℝ) ≤ 9.8)]

theorem deviationOf_gravity : deviationOf 9.8 0 0 = 0 := by
  unfold deviationOf
  rw [show (9.8 : ℝ) * 9.8 + 0 * 0 + 0 * 0 = 9.8 * 9.8 by ring,
    Real.sqrt_mul_self (by norm_num : (0 : ℝ) ≤ 9.8), sub_self, abs_zero]

theorem addDeviationData_nil {cfg : StationaryConfig}
    (hdur : 0 ≤ cfg.historyDurationMs) (deviation : ℝ) (now : ℤ) :
    addDeviationData cfg [] deviation now =
      [({ value := deviation, timestamp := now } : DeviationData)] := by
  unfold addDeviationData
  rw [List.nil_append, List.filter_cons]
  simp only [sub_self, decide_eq_true_eq]
  rw [if_pos hdur]
  rfl

theorem calculateMean_singleton (d : DeviationData) : calculateMean [d] = d.value := by
  unfold calculateMean
  simp

theorem stateFrom_history_length_le (cfg : StationaryConfig) (s0 : DetectorState)
    (inputs : List (ℝ × ℤ)) :
    ∀ k, (stateFrom cfg s0 inputs k).deviationHistory.length ≤
      s0.deviationHistory.length + k := by
  intro k
  induction k with
  | zero => simp [stateFrom_zero]
  | succ k ih =>
      rcases Nat.lt_or_ge k inputs.length with hk | hk
      · rw [stateFrom_succ hk, detect_history]
        have h2 := addDeviationData_length_le cfg
          (stateFrom cfg s0 inputs k).deviationHistory
          (inputs.getD k ((0 : ℝ), (0 : ℤ))).1 (inputs.getD k ((0 : ℝ), (0 : ℤ))).2
        omega
      · rw [stateFrom_of_length_le (le_trans hk (Nat.le_succ k))]
        rw [stateFrom_of_length_le hk] at ih
        omega

/-- From an empty starting window, call number `k` still sees at most `k + 1`
samples, so it returns the neutral result whenever `k + 1 < minSampleCount`. -/
theorem resultFrom_neutral_of_short {cfg : StationaryConfig} {s0 : DetectorState}
    (h0 : s0.deviationHistory = []) {inputs : List (ℝ × ℤ)} {k : ℕ}
    (hmin : k + 1 < cfg.minSampleCount) :
    resultFrom cfg s0 inputs k = neutralResult := by
  have hlen := stateFrom_history_length_le cfg s0 inputs k
  rw [h0] at hlen
  simp only [List.length_nil, Nat.zero_add] at hlen
  have h2 := addDeviationData_length_le cfg
    (stateFrom cfg s0 inputs k).deviationHistory
    (inputs.getD k ((0 : ℝ), (0 : ℤ))).1 (inputs.getD k ((0 : ℝ), (0 : ℤ))).2
  rw [resultFrom_eq, detect_insufficient (by omega)]

/-! ## Tracking the flag and the dwell timer across a run -/

theorem detect_flag_cases (cfg : StationaryConfig) (st : DetectorState)
    (deviation : ℝ) (now : ℤ) :
    (detectStationaryDev cfg st deviation now).2.isStationary = st.isStationary ∨
    (detectStationaryDev cfg st deviation now).2.isStationary =
      (detectStationaryDev cfg st deviation now).1.isStationary := by
  simp only [detectStationaryDev]
  split_ifs
  · exact Or.inr rfl
  · exact Or.inl rfl
  · exact Or.inr rfl
  · exact Or.inl rfl

theorem detect_startTime_cases (cfg : StationaryConfig) (st : DetectorState)
    (deviation : ℝ) (now : ℤ) :
    (detectStationaryDev cfg st deviation now).2.stationaryStartTime =
      st.stationaryStartTime ∨
    (detectStationaryDev cfg st deviation now).2.stationaryStartTime = none ∨
    (detectStationaryDev cfg st deviation now).2.stationaryStartTime =
      some (st.stationaryStartTime.getD now) := by
  simp only [detectStationaryDev]
  split_ifs
  · exact Or.inr (Or.inr rfl)
  · exact Or.inr (Or.inr rfl)
  · exact Or.inr (Or.inl rfl)
  · exact Or.inl rfl

/-- A call can only return `isStationary = true` from a non-stationary state by
taking the full, quiet, dwell-elapsed branch. -/
theorem result_true_elim {cfg : StationaryConfig} {st : DetectorState}
    {deviation : ℝ} {now : ℤ}
    (h : (detectStationaryDev cfg st deviation now).1.isStationary = true)
    (hflag : st.isStationary = false) :
    cfg.minSampleCount ≤
      (addDeviationData cfg st.deviationHistory deviation now).length ∧
    (calculateMean (addDeviationData cfg st.deviationHistory deviation now) <
        cfg.meanThreshold ∧
      calculateStandardDeviation (addDeviationData cfg st.deviationHistory deviation now) <
        cfg.stdThreshold) ∧
    cfg.stationaryDurationMs ≤ now - st.stationaryStartTime.getD now := by
  by_cases h1 : cfg.minSampleCount ≤
      (addDeviationData cfg st.deviationHistory deviation now).length
  · by_cases h2 : calculateMean (addDeviationData cfg st.deviationHistory deviation now) <
        cfg.meanThreshold ∧
      calculateStandardDeviation (addDeviationData cfg st.deviationHistory deviation now) <
        cfg.stdThreshold
    · by_cases h3 : cfg.stationaryDurationMs ≤ now - st.stationaryStartTime.getD now
      · exact ⟨h1, h2, h3⟩
      · rw [detect_quiet_wait h1 h2 h3] at h
        rw [hflag] at h
        exact absurd h Bool.false_ne_true
    · rw [detect_notQuiet h1 h2] at h
      exact absurd h Bool.false_ne_true
  · rw [detect_insufficient (not_le.mp h1)] at h
    exact absurd h Bool.false_ne_true

/-- As long as every call has reported `isStationary = false`, the internal
flag of a detector started non-stationary is still false. -/
theorem flag_false_of_results_false {cfg : StationaryConfig} {s0 : DetectorState}
    {inputs : List (ℝ × ℤ)} (h0 : s0.isStationary = false) :
    ∀ k, (∀ l < k, (resultFrom cfg s0 inputs l).isStationary = false) →
      (stateFrom cfg s0 inputs k).isStationary = false := by
  intro k
  induction k with
  | zero => exact fun _ => h0
  | succ k ih =>
      intro hres
      have ihk := ih (fun l hl => hres l (lt_trans hl (Nat.lt_succ_self k)))
      rcases Nat.lt_or_ge k inputs.length with hklen | hklen
      · rw [stateFrom_succ hklen]
        rcases detect_flag_cases cfg (stateFrom cfg s0 inputs k)
          (inputs.getD k ((0 : ℝ), (0 : ℤ))).1
          (inputs.getD k ((0 : ℝ), (0 : ℤ))).2 with hc | hc
        · rw [hc]; exact ihk
        · rw [hc]; exact hres k (Nat.lt_succ_self k)
      · rw [stateFrom_of_length_le (le_trans hklen (Nat.le_succ k))]
        rw [stateFrom_of_length_le hklen] at ihk
        exact ihk

/-- Along any run started with an unset dwell timer, at each point the timer is
either still unset, or it was set at some call `i` to the timestamp of call `i`
and has been preserved ever since. -/
theorem startTime_tracking {cfg : StationaryConfig} {s0 : DetectorState}
    {inputs : List (ℝ × ℤ)} (h0 : s0.stationaryStartTime = none) :
    ∀ k, (stateFrom cfg s0 inputs k).stationaryStartTime = none ∨
      ∃ i, i < k ∧ (stateFrom cfg s0 inputs i).stationaryStartTime = none ∧
        ∀ l, i < l → l ≤ k →
          (stateFrom cfg s0 inputs l).stationaryStartTime =
            some (inputs.getD i ((0 : ℝ), (0 : ℤ))).2 := by
  intro k
  induction k with
  | zero => exact Or.inl h0
  | succ k ih =>
      rcases Nat.lt_or_ge k inputs.length with hklen | hklen
      · have hsucc := @stateFrom_succ cfg s0 _ _ hklen
        rcases ih with hnone | ⟨i, hik, hinone, hint⟩
        · rcases detect_startTime_cases cfg (stateFrom cfg s0 inputs k)
            (inputs.getD k ((0 : ℝ), (0 : ℤ))).1
            (inputs.getD k ((0 : ℝ), (0 : ℤ))).2 with hc | hc | hc
          · left
            rw [hsucc, hc, hnone]
          · left
            rw [hsucc, hc]
          · right
            refine ⟨k, Nat.lt_succ_self k, hnone, ?_⟩
            intro l h1 h2
            have : l = k + 1 := le_antisymm h2 h1
            subst this
            rw [hsucc, hc, hnone, Option.getD_none]
        · have hstk : (stateFrom cfg s0 inputs k).stationaryStartTime =
              some (inputs.getD i ((0 : ℝ), (0 : ℤ))).2 :=
            hint k hik le_rfl
          rcases detect_startTime_cases cfg (stateFrom cfg s0 inputs k)
            (inputs.getD k ((0 : ℝ), (0 : ℤ))).1
            (inputs.getD k ((0 : ℝ), (0 : ℤ))).2 with hc | hc | hc
          · right
            refine ⟨i, lt_trans hik (Nat.lt_succ_self k), hinone, ?_⟩
            intro l h1 h2
            rcases Nat.lt_or_ge l (k + 1) with hl | hl
            · exact hint l h1 (Nat.lt_succ_iff.mp hl)
            · have : l = k + 1 := le_antisymm h2 hl
              subst this
              rw [hsucc, hc, hstk]
          · left
            rw [hsucc, hc]
          · right
            refine ⟨i, lt_trans hik (Nat.lt_succ_self k), hinone, ?_⟩
            intro l h1 h2
            rcases Nat.lt_or_ge l (k + 1) with hl | hl
            · exact hint l h1 (Nat.lt_succ_iff.mp hl)
            · have : l = k + 1 := le_antisymm h2 hl
              subst this
              rw [hsucc, hc, hstk, Option.getD_some]
      · rcases ih with hnone | ⟨i, hik, hinone, hint⟩
        · left
          rw [stateFrom_of_length_le (le_trans hklen (Nat.le_succ k))]
          rw [stateFrom_of_length_le hklen] at hnone
          exact hnone
        · right
          refine ⟨i, lt_trans hik (Nat.lt_succ_self k), hinone, ?_⟩
          intro l h1 h2
          rcases Nat.lt_or_ge l (k + 1) with hl | hl
          · exact hint l h1 (Nat.lt_succ_iff.mp hl)
          · have : l = k + 1 := le_antisymm h2 hl
            subst this
            rw [stateFrom_of_length_le (le_trans hklen (Nat.le_succ k))]
            rw [← stateFrom_of_length_le hklen]
            exact hint k hik le_rfl

/-! ## Claim theorems -/

/-- Claim C1: on each GPS fix, a drift signal is produced iff the detector is
currently stationary and the fix speed (0 when absent) strictly exceeds
0.3 m/s; in particular stationary with speed 0.5 yields an event carrying 0.5,
stationary with speed 0.1 yields none, and non-stationary yields none for any
speed. -/
theorem claim_c1 (det : DetectorState) (speed : Option ℝ) :
    ((onFix det speed).isSome = true ↔
      (getIsStationary det = true ∧ GPS_DRIFT_SPEED_THRESHOLD < speed.getD 0)) ∧
    (getIsStationary det = true →
      onFix det (some 0.5) = some ⟨0.5, true⟩) ∧
    (getIsStationary det = true → onFix det (some 0.1) = none) ∧
    (getIsStationary det = false → onFix det speed = none) := by
  refine ⟨?_, ?_, ?_, ?_⟩
  · unfold onFix
    by_cases h : getIsStationary det = true ∧
        GPS_DRIFT_SPEED_THRESHOLD < speed.getD 0
    · rw [if_pos h]
      simp [h]
    · rw [if_neg h]
      simp [h]
  · intro h
    unfold onFix
    rw [if_pos ⟨h, by rw [Option.getD_some]; norm_num [GPS_DRIFT_SPEED_THRESHOLD]⟩, h,
      Option.getD_some]
  · intro h
    have hno : ¬ (getIsStationary det = true ∧
        GPS_DRIFT_SPEED_THRESHOLD < (some (0.1 : ℝ)).getD 0) := by
      rintro ⟨-, hlt⟩
      rw [Option.getD_some] at hlt
      norm_num [GPS_DRIFT_SPEED_THRESHOLD] at hlt
    unfold onFix
    rw [if_neg hno]
  · intro h
    have hno : ¬ (getIsStationary det = true ∧
        GPS_DRIFT_SPEED_THRESHOLD < speed.getD 0) := by
      rintro ⟨h1, -⟩
      rw [h] at h1
      exact Bool.false_ne_true h1
    unfold onFix
    rw [if_neg hno]

/-- Witness for C1 at the three concrete scenarios of the spec. -/
theorem claim_c1_witness :
    getIsStationary (⟨[], true, none⟩ : DetectorState) = true ∧
    onFix ⟨[], true, none⟩ (some 0.5) = some ⟨0.5, true⟩ ∧
    onFix ⟨[], true, none⟩ (some 0.1) = none ∧
    getIsStationary (⟨[], false, none⟩ : DetectorState) = false ∧
    onFix ⟨[], false, none⟩ (some 5) = none :=
  ⟨rfl,
   (claim_c1 ⟨[], true, none⟩ (some 0.5)).2.1 rfl,
   (claim_c1 ⟨[], true, none⟩ (some 0.1)).2.2.1 rfl,
   rfl,
   (claim_c1 ⟨[], false, none⟩ (some 5)).2.2.2 rfl⟩

/-- Claim C10: the function `detectStationary` depends on the sample only through the squared
magnitude, so negating any axis or permuting the axes leaves the result and
the successor state unchanged. -/
theorem claim_c10 (cfg : StationaryConfig) (st : DetectorState) (x y z : ℝ)
    (now : ℤ) :
    detectStationary cfg st x y z now =
      detectStationaryDev cfg st (|Real.sqrt (x * x + y * y + z * z) - 9.8|) now ∧
    detectStationary cfg st (-x) y z now = detectStationary cfg st x y z now ∧
    detectStationary cfg st x (-y) z now = detectStationary cfg st x y z now ∧
    detectStationary cfg st x y (-z) now = detectStationary cfg st x y z now ∧
    detectStationary cfg st y x z now = detectStationary cfg st x y z now ∧
    detectStationary cfg st x z y now = detectStationary cfg st x y z now ∧
    detectStationary cfg st z y x now = detectStationary cfg st x y z now ∧
    detectStationary cfg st y z x now = detectStationary cfg st x y z now ∧
    detectStationary cfg st z x y now = detectStationary cfg st x y z now := by
  have key : ∀ a b c : ℝ, a * a + b * b + c * c = x * x + y * y + z * z →
      detectStationary cfg st a b c now = detectStationary cfg st x y z now := by
    intro a b c h
    unfold detectStationary deviationOf
    rw [h]
  exact ⟨rfl, key _ _ _ (by ring), key _ _ _ (by ring), key _ _ _ (by ring),
    key _ _ _ (by ring), key _ _ _ (by ring), key _ _ _ (by ring),
    key _ _ _ (by ring), key _ _ _ (by ring)⟩

/-- Claim C4: a call that finds fewer than `minSampleCount` samples in the window
after insertion and pruning returns the neutral result, whatever the prior
state; in particular each of the first `minSampleCount - 1` calls from the
initial state does. -/
theorem claim_c4 (cfg : StationaryConfig) :
    (∀ (st : DetectorState) (x y z : ℝ) (now : ℤ),
      (addDeviationData cfg st.deviationHistory (deviationOf x y z) now).length <
        cfg.minSampleCount →
      (detectStationary cfg st x y z now).1 = neutralResult) ∧
    (∀ (inputs : List (ℝ × ℤ)) (k : ℕ), k < cfg.minSampleCount - 1 →
      resultFrom cfg initialState inputs k = neutralResult) := by
  constructor
  · intro st x y z now h
    unfold detectStationary
    rw [detect_insufficient h]
  · intro inputs k hk
    exact resultFrom_neutral_of_short rfl (by omega)

/-- Witness for C4: with a two-sample minimum, the very first call returns the
neutral result. -/
theorem claim_c4_witness :
    (addDeviationData cfgMin2 initialState.deviationHistory (deviationOf 0 0 0) 0).length <
      cfgMin2.minSampleCount ∧
    (detectStationary cfgMin2 initialState 0 0 0 0).1 = neutralResult ∧
    (0 : ℕ) < cfgMin2.minSampleCount - 1 ∧
    resultFrom cfgMin2 initialState zeroInputs2 0 = neutralResult := by
  have h1 : (addDeviationData cfgMin2 initialState.deviationHistory
      (deviationOf 0 0 0) 0).length < cfgMin2.minSampleCount := by
    have h2 := addDeviationData_length_le cfgMin2 initialState.deviationHistory
      (deviationOf 0 0 0) 0
    have h3 : cfgMin2.minSampleCount = 2 := rfl
    have h4 : initialState.deviationHistory.length = 0 := rfl
    omega
  exact ⟨h1, (claim_c4 cfgMin2).1 initialState 0 0 0 0 h1, by decide,
    (claim_c4 cfgMin2).2 zeroInputs2 0 (by decide)⟩

/-- Claim C6: the operation `reset` always yields exactly the initial state, and any run of fewer
than `minSampleCount` calls after a reset returns only neutral results. -/
theorem claim_c6 (cfg : StationaryConfig) (st : DetectorState) :
    reset st = initialState ∧
    (reset st).deviationHistory = [] ∧
    getIsStationary (reset st) = false ∧
    (reset st).stationaryStartTime = none ∧
    (∀ (inputs : List (ℝ × ℤ)) (k : ℕ), k < inputs.length →
      inputs.length < cfg.minSampleCount →
      resultFrom cfg (reset st) inputs k = neutralResult) := by
  refine ⟨rfl, rfl, rfl, rfl, ?_⟩
  intro inputs k hk hlen
  exact resultFrom_neutral_of_short rfl (by omega)

/-- Witness for C6: resetting a stationary detector with history and timer. -/
theorem claim_c6_witness :
    reset stC9 = initialState ∧
    getIsStationary (reset stC9) = false ∧
    zeroInputs1.length < cfgMin2.minSampleCount ∧
    resultFrom cfgMin2 (reset stC9) zeroInputs1 0 = neutralResult := by
  have happ := claim_c6 cfgMin2 stC9
  exact ⟨happ.1, happ.2.2.1, by decide,
    happ.2.2.2.2 zeroInputs1 0 (by decide) (by decide)⟩

/-- Claim C3: from a stationary state, the very next call whose full window has mean
at or above `meanThreshold` or standard deviation at or above `stdThreshold`
immediately returns `isStationary = false` with `stateChanged = true`, no dwell
delay, clears the timer and reports duration 0. -/
theorem claim_c3 (cfg : StationaryConfig) (st : DetectorState) (x y z : ℝ)
    (now : ℤ) (hst : st.isStationary = true)
    (hfull : cfg.minSampleCount ≤
      (addDeviationData cfg st.deviationHistory (deviationOf x y z) now).length)
    (hloud : cfg.meanThreshold ≤
        calculateMean
          (addDeviationData cfg st.deviationHistory (deviationOf x y z) now) ∨
      cfg.stdThreshold ≤
        calculateStandardDeviation
          (addDeviationData cfg st.deviationHistory (deviationOf x y z) now)) :
    (detectStationary cfg st x y z now).1.isStationary = false ∧
    (detectStationary cfg st x y z now).1.stateChanged = true ∧
    (detectStationary cfg st x y z now).1.duration = 0 ∧
    (detectStationary cfg st x y z now).2.isStationary = false ∧
    (detectStationary cfg st x y z now).2.stationaryStartTime = none := by
  have hq : ¬ (calculateMean
        (addDeviationData cfg st.deviationHistory (deviationOf x y z) now) <
        cfg.meanThreshold ∧
      calculateStandardDeviation
        (addDeviationData cfg st.deviationHistory (deviationOf x y z) now) <
        cfg.stdThreshold) := by
    rcases hloud with h | h
    · exact fun hc => absurd hc.1 (not_lt.mpr h)
    · exact fun hc => absurd hc.2 (not_lt.mpr h)
  unfold detectStationary
  rw [detect_notQuiet hfull hq]
  exact ⟨rfl, hst, rfl, rfl, rfl⟩

/-- Witness for C3: one loud sample (deviation 9.8) on a one-sample window
flips a stationary detector immediately. -/
theorem claim_c3_witness :
    stC3.isStationary = true ∧
    cfgUnit.minSampleCount ≤
      (addDeviationData cfgUnit stC3.deviationHistory (deviationOf 0 0 0) 10).length ∧
    cfgUnit.meanThreshold ≤
      calculateMean (addDeviationData cfgUnit stC3.deviationHistory (deviationOf 0 0 0) 10) ∧
    (detectStationary cfgUnit stC3 0 0 0 10).1.isStationary = false ∧
    (detectStationary cfgUnit stC3 0 0 0 10).1.stateChanged = true ∧
    (detectStationary cfgUnit stC3 0 0 0 10).1.duration = 0 ∧
    (detectStationary cfgUnit stC3 0 0 0 10).2.stationaryStartTime = none := by
  have hfull : cfgUnit.minSampleCount ≤
      (addDeviationData cfgUnit stC3.deviationHistory (deviationOf 0 0 0) 10).length :=
    addDeviationData_length_pos (by decide) _ _ _
  have hmean : cfgUnit.meanThreshold ≤
      calculateMean (addDeviationData cfgUnit stC3.deviationHistory (deviationOf 0 0 0) 10) := by
    have he : stC3.deviationHistory = [] := rfl
    rw [he, addDeviationData_nil (by decide), calculateMean_singleton, deviationOf_zero]
    norm_num [cfgUnit]
  obtain ⟨h1, h2, h3, h4, h5⟩ := claim_c3 cfgUnit stC3 0 0 0 10 rfl hfull (Or.inl hmean)
  exact ⟨rfl, hfull, hmean, h1, h2, h3, h5⟩

/-- Claim C9: an insufficient-data call returns the neutral result yet leaves the
internal flag and dwell timer untouched, so `getIsStationary` can still be
true right after a call that returned `isStationary = false`; and a
`stateChanged = true` report can only come from a full-window call. -/
theorem claim_c9 (cfg : StationaryConfig) :
    (∀ (st : DetectorState) (x y z : ℝ) (now : ℤ),
      (addDeviationData cfg st.deviationHistory (deviationOf x y z) now).length <
        cfg.minSampleCount →
      (detectStationary cfg st x y z now).1 = neutralResult ∧
      (detectStationary cfg st x y z now).2.isStationary = st.isStationary ∧
      (detectStationary cfg st x y z now).2.stationaryStartTime =
        st.stationaryStartTime ∧
      (st.isStationary = true →
        getIsStationary (detectStationary cfg st x y z now).2 = true ∧
        (detectStationary cfg st x y z now).1.isStationary = false)) ∧
    (∀ (st : DetectorState) (x y z : ℝ) (now : ℤ),
      (detectStationary cfg st x y z now).1.stateChanged = true →
      cfg.minSampleCount ≤
        (addDeviationData cfg st.deviationHistory (deviationOf x y z) now).length) := by
  constructor
  · intro st x y z now h
    unfold detectStationary
    rw [detect_insufficient h]
    exact ⟨rfl, rfl, rfl, fun hs => ⟨hs, rfl⟩⟩
  · intro st x y z now hsc
    by_contra hfull
    unfold detectStationary at hsc
    rw [detect_insufficient (not_le.mp hfull)] at hsc
    exact Bool.false_ne_true hsc

/-- Witness for C9: a stationary detector whose window is pruned down to one
sample by a 90 ms gap still reports `getIsStationary = true` after the call
that returned `isStationary = false`. -/
theorem claim_c9_witness :
    stC9.isStationary = true ∧
    (addDeviationData cfgShort stC9.deviationHistory (deviationOf 0 0 0) 100).length <
      cfgShort.minSampleCount ∧
    (detectStationary cfgShort stC9 0 0 0 100).1.isStationary = false ∧
    (detectStationary cfgShort stC9 0 0 0 100).1.stateChanged = false ∧
    getIsStationary (detectStationary cfgShort stC9 0 0 0 100).2 = true := by
  have hlt : (addDeviationData cfgShort stC9.deviationHistory
      (deviationOf 0 0 0) 100).length < cfgShort.minSampleCount := by decide
  obtain ⟨h1, h2, h3, h4⟩ := (claim_c9 cfgShort).1 stC9 0 0 0 100 hlt
  have h5 := h4 rfl
  refine ⟨rfl, hlt, h5.2, ?_, h5.1⟩
  rw [h1]
  rfl

/-- Claim C8: after every call each retained sample is within `historyDurationMs` of
`now`, strictly older samples are pruned, chronological order is preserved
under monotone timestamps, and `reset`/`getIsStationary` respect the
invariant trivially. -/
theorem claim_c8 (cfg : StationaryConfig) (st : DetectorState) (x y z : ℝ)
    (now : ℤ) :
    (∀ d ∈ (detectStationary cfg st x y z now).2.deviationHistory,
      now - d.timestamp ≤ cfg.historyDurationMs) ∧
    (∀ d ∈ st.deviationHistory, cfg.historyDurationMs < now - d.timestamp →
      d ∉ (detectStationary cfg st x y z now).2.deviationHistory) ∧
    (List.Pairwise (fun a b => a.timestamp ≤ b.timestamp) st.deviationHistory →
      (∀ d ∈ st.deviationHistory, d.timestamp ≤ now) →
      List.Pairwise (fun a b => a.timestamp ≤ b.timestamp)
        (detectStationary cfg st x y z now).2.deviationHistory) ∧
    (reset st).deviationHistory = [] ∧
    getIsStationary st = st.isStationary := by
  unfold detectStationary
  rw [detect_history]
  refine ⟨?_, ?_, ?_, rfl, rfl⟩
  · intro d hd
    unfold addDeviationData at hd
    simp only [List.mem_filter, decide_eq_true_eq] at hd
    exact hd.2
  · intro d hd hold hmem
    unfold addDeviationData at hmem
    simp only [List.mem_filter, decide_eq_true_eq] at hmem
    exact absurd hmem.2 (not_le.mpr hold)
  · intro hpw hle
    unfold addDeviationData
    refine List.Pairwise.sublist (List.filter_sublist _) ?_
    rw [List.pairwise_append]
    refine ⟨hpw, by simp, ?_⟩
    intro a ha b hb
    rw [List.mem_singleton] at hb
    subst hb
    exact hle a ha

/-- Witness for C8: a 90 ms gap with a 10 ms retention window prunes the old
sample and every survivor is within the window. -/
theorem claim_c8_witness :
    cfgShort.historyDurationMs < 100 - (0 : ℤ) ∧
    ((⟨0, 0⟩ : DeviationData) ∉
      (detectStationary cfgShort stC8 0 0 0 100).2.deviationHistory) ∧
    (∀ d ∈ (detectStationary cfgShort stC8 0 0 0 100).2.deviationHistory,
      100 - d.timestamp ≤ cfgShort.historyDurationMs) ∧
    List.Pairwise (fun a b => a.timestamp ≤ b.timestamp)
      (detectStationary cfgShort stC8 0 0 0 100).2.deviationHistory := by
  have happ := claim_c8 cfgShort stC8 0 0 0 100
  refine ⟨by decide, ?_, happ.1, ?_⟩
  · exact happ.2.1 ⟨0, 0⟩ (List.mem_singleton_self _) (by decide)
  · refine happ.2.2.1 (by simp [stC8]) ?_
    intro d hd
    have he : stC8.deviationHistory = [⟨0, 0⟩] := rfl
    rw [he, List.mem_singleton] at hd
    subst hd
    decide

/-- Claim C5: a not-quiet full-window call during a quiet streak (timer set, flag
still false) clears the dwell timer without a state change; and with a
positive dwell requirement, any later false-to-true transition at call `j`
requires a call `i` before it at which the timer was restarted to the
timestamp of call `i`, kept set through call `j`, with the transition at least
`stationaryDurationMs` after that restart. -/
theorem claim_c5 (cfg : StationaryConfig) :
    (∀ (st : DetectorState) (x y z : ℝ) (t now : ℤ),
      st.stationaryStartTime = some t → st.isStationary = false →
      cfg.minSampleCount ≤
        (addDeviationData cfg st.deviationHistory (deviationOf x y z) now).length →
      ¬ (calculateMean
          (addDeviationData cfg st.deviationHistory (deviationOf x y z) now) <
          cfg.meanThreshold ∧
        calculateStandardDeviation
          (addDeviationData cfg st.deviationHistory (deviationOf x y z) now) <
          cfg.stdThreshold) →
      (detectStationary cfg st x y z now).2.stationaryStartTime = none ∧
      (detectStationary cfg st x y z now).2.isStationary = false ∧
      (detectStationary cfg st x y z now).1.stateChanged = false) ∧
    (0 < cfg.stationaryDurationMs →
      ∀ (s0 : DetectorState) (inputs : List (ℝ × ℤ)) (j : ℕ),
        s0.stationaryStartTime = none → s0.isStationary = false →
        (resultFrom cfg s0 inputs j).isStationary = true →
        (∀ l < j, (resultFrom cfg s0 inputs l).isStationary = false) →
        ∃ i, i < j ∧
          (stateFrom cfg s0 inputs i).stationaryStartTime = none ∧
          (∀ l, i < l → l ≤ j →
            (stateFrom cfg s0 inputs l).stationaryStartTime =
              some (inputs.getD i ((0 : ℝ), (0 : ℤ))).2) ∧
          cfg.stationaryDurationMs ≤
            (inputs.getD j ((0 : ℝ), (0 : ℤ))).2 -
              (inputs.getD i ((0 : ℝ), (0 : ℤ))).2) := by
  constructor
  · intro st x y z t now hsome hflag hfull hq
    unfold detectStationary
    rw [detect_notQuiet hfull hq]
    exact ⟨rfl, rfl, hflag⟩
  · intro hsd s0 inputs j hnone0 hflag0 hjtrue hfirst
    have hflagj : (stateFrom cfg s0 inputs j).isStationary = false :=
      flag_false_of_results_false hflag0 j hfirst
    rw [resultFrom_eq] at hjtrue
    have helim := result_true_elim hjtrue hflagj
    rcases startTime_tracking hnone0 j with hnone | ⟨i, hij, hinone, hint⟩
    · exfalso
      rw [hnone, Option.getD_none] at helim
      have hc := helim.2.2
      omega
    · refine ⟨i, hij, hinone, hint, ?_⟩
      have hstj := hint j hij le_rfl
      rw [hstj, Option.getD_some] at helim
      exact helim.2.2

/-- Witness for C5: a loud sample clears the timer of `stTimer`; and on
`dwellInputs` the transition at call 1 is preceded by the restart at call 0,
2000 ms earlier. -/
theorem claim_c5_witness :
    stTimer.stationaryStartTime = some 3 ∧
    (detectStationary cfgUnit stTimer 0 0 0 10).2.stationaryStartTime = none ∧
    (detectStationary cfgUnit stTimer 0 0 0 10).2.isStationary = false ∧
    (detectStationary cfgUnit stTimer 0 0 0 10).1.stateChanged = false ∧
    (0 : ℤ) < cfgDwell.stationaryDurationMs ∧
    (resultFrom cfgDwell initialState dwellInputs 1).isStationary = true ∧
    (∃ i, i < 1 ∧
      (stateFrom cfgDwell initialState dwellInputs i).stationaryStartTime = none ∧
      (∀ l, i < l → l ≤ 1 →
        (stateFrom cfgDwell initialState dwellInputs l).stationaryStartTime =
          some (dwellInputs.getD i ((0 : ℝ), (0 : ℤ))).2) ∧
      cfgDwell.stationaryDurationMs ≤
        (dwellInputs.getD 1 ((0 : ℝ), (0 : ℤ))).2 -
          (dwellInputs.getD i ((0 : ℝ), (0 : ℤ))).2) := by
  have hq : ¬ (calculateMean
      (addDeviationData cfgUnit stTimer.deviationHistory (deviationOf 0 0 0) 10) <
      cfgUnit.meanThreshold ∧
    calculateStandardDeviation
      (addDeviationData cfgUnit stTimer.deviationHistory (deviationOf 0 0 0) 10) <
      cfgUnit.stdThreshold) := by
    have he : stTimer.deviationHistory = [] := rfl
    rw [he, addDeviationData_nil (by decide), calculateMean_singleton, deviationOf_zero]
    rintro ⟨hm, -⟩
    norm_num [cfgUnit] at hm
  obtain ⟨ha1, ha2, ha3⟩ := (claim_c5 cfgUnit).1 stTimer 0 0 0 3 10 rfl rfl
    (addDeviationData_length_pos (by decide) _ _ _) hq
  have hmtD : (0 : ℝ) < cfgDwell.meanThreshold := by norm_num [cfgDwell]
  have hstdD : (0 : ℝ) < cfgDwell.stdThreshold := by norm_num [cfgDwell]
  have hfull0 : cfgDwell.minSampleCount ≤
      (addDeviationData cfgDwell initialState.deviationHistory (0 : ℝ) 0).length :=
    addDeviationData_length_pos (by decide) _ _ _
  have hq0 := quiet_of_allZero hmtD hstdD
    (@addDeviationData_allZero cfgDwell _ _ (0 : ℤ)
      initialState_allZero rfl)
  have hd0 : ¬ cfgDwell.stationaryDurationMs ≤
      0 - initialState.stationaryStartTime.getD 0 := by decide
  have h1 := @detect_quiet_wait cfgDwell initialState 0 0 hfull0 hq0 hd0
  have hres0 : (resultFrom cfgDwell initialState dwellInputs 0).isStationary = false := by
    show (detectStationaryDev cfgDwell initialState 0 0).1.isStationary = false
    rw [h1]
    rfl
  have hz1 : ∀ d ∈ (detectStationaryDev cfgDwell initialState 0 0).2.deviationHistory,
      d.value = 0 := by
    rw [detect_history]
    exact addDeviationData_allZero initialState_allZero rfl
  have hst1 : (detectStationaryDev cfgDwell initialState 0 0).2.stationaryStartTime =
      some 0 := by
    rw [h1]
    rfl
  have hfull2 : cfgDwell.minSampleCount ≤
      (addDeviationData cfgDwell
        (detectStationaryDev cfgDwell initialState 0 0).2.deviationHistory
        (0 : ℝ) 2000).length :=
    addDeviationData_length_pos (by decide) _ _ _
  have hq2 := quiet_of_allZero hmtD hstdD
    (@addDeviationData_allZero cfgDwell _ _ (2000 : ℤ) hz1 rfl)
  have hd2 : cfgDwell.stationaryDurationMs ≤
      2000 - (detectStationaryDev cfgDwell initialState 0 0).2.stationaryStartTime.getD
        2000 := by
    rw [hst1, Option.getD_some]
    decide
  have hjtrue : (resultFrom cfgDwell initialState dwellInputs 1).isStationary = true := by
    show (detectStationaryDev cfgDwell
      (detectStationaryDev cfgDwell initialState 0 0).2 0 2000).1.isStationary = true
    rw [detect_quiet_go hfull2 hq2 hd2]
  have hfirst : ∀ l < 1, (resultFrom cfgDwell initialState dwellInputs l).isStationary =
      false := by
    intro l hl
    have : l = 0 := Nat.lt_one_iff.mp hl
    subst this
    exact hres0
  have happb := (claim_c5 cfgDwell).2 (by decide) initialState dwellInputs 1
    rfl rfl hjtrue hfirst
  exact ⟨rfl, ha1, ha2, ha3, by decide, hjtrue, happb⟩

/-- Claim C7 counterexample: the source computes the returned duration with a JS
truthiness test (`this.stationaryStartTime ? now - it : 0`), so when the dwell
timer was set at clock value 0, a later full-window quiet call at clock 5
returns duration 0 even though `stationarySinceMs` is set and `now - it = 5`.
The state is reached from the initial state by two magnitude-9.8 samples at
times 0 and 5. -/
theorem claim_c7_counterexample :
    (detectStationary cfgUnit initialState 9.8 0 0 0).2.stationaryStartTime = some 0 ∧
    cfgUnit.minSampleCount ≤
      (detectStationary cfgUnit (detectStationary cfgUnit initialState 9.8 0 0 0).2
        9.8 0 0 5).2.deviationHistory.length ∧
    (detectStationary cfgUnit (detectStationary cfgUnit initialState 9.8 0 0 0).2
      9.8 0 0 5).2.stationaryStartTime = some 0 ∧
    (detectStationary cfgUnit (detectStationary cfgUnit initialState 9.8 0 0 0).2
      9.8 0 0 5).1.duration = 0 ∧
    (5 : ℤ) - 0 = 5 ∧
    (detectStationary cfgUnit (detectStationary cfgUnit initialState 9.8 0 0 0).2
      9.8 0 0 5).1.duration ≠ (5 : ℤ) - 0 := by
  have hmtU : (0 : ℝ) < cfgUnit.meanThreshold := by norm_num [cfgUnit]
  have hstdU : (0 : ℝ) < cfgUnit.stdThreshold := by norm_num [cfgUnit]
  have hfull1 : cfgUnit.minSampleCount ≤
      (addDeviationData cfgUnit initialState.deviationHistory
        (deviationOf 9.8 0 0) 0).length :=
    addDeviationData_length_pos (by decide) _ _ _
  have hq1 := quiet_of_allZero hmtU hstdU
    (@addDeviationData_allZero cfgUnit _ _ (0 : ℤ)
      initialState_allZero deviationOf_gravity)
  have hd1 : cfgUnit.stationaryDurationMs ≤
      0 - initialState.stationaryStartTime.getD 0 := by decide
  have h1 := @detect_quiet_go cfgUnit initialState (deviationOf 9.8 0 0) 0 hfull1 hq1 hd1
  have hs1 : (detectStationaryDev cfgUnit initialState (deviationOf 9.8 0 0)
      0).2.stationaryStartTime = some 0 := by
    rw [h1]
    rfl
  have hz1 : ∀ d ∈ (detectStationaryDev cfgUnit initialState (deviationOf 9.8 0 0)
      0).2.deviationHistory, d.value = 0 := by
    rw [detect_history]
    exact addDeviationData_allZero initialState_allZero deviationOf_gravity
  have hfull2 : cfgUnit.minSampleCount ≤
      (addDeviationData cfgUnit
        (detectStationaryDev cfgUnit initialState (deviationOf 9.8 0 0)
          0).2.deviationHistory (deviationOf 9.8 0 0) 5).length :=
    addDeviationData_length_pos (by decide) _ _ _
  have hq2 := quiet_of_allZero hmtU hstdU
    (@addDeviationData_allZero cfgUnit _ _ (5 : ℤ) hz1
      deviationOf_gravity)
  have hd2 : cfgUnit.stationaryDurationMs ≤
      5 - (detectStationaryDev cfgUnit initialState (deviationOf 9.8 0 0)
        0).2.stationaryStartTime.getD 5 := by
    rw [hs1, Option.getD_some]
    decide
  have h2 := @detect_quiet_go cfgUnit
    (detectStationaryDev cfgUnit initialState (deviationOf 9.8 0 0) 0).2
    (deviationOf 9.8 0 0) 5 hfull2 hq2 hd2
  unfold detectStationary
  refine ⟨hs1, ?_, ?_, ?_, by decide, ?_⟩
  · rw [detect_history]
    exact hfull2
  · rw [h2]
    show some ((detectStationaryDev cfgUnit initialState (deviationOf 9.8 0 0)
      0).2.stationaryStartTime.getD 5) = some 0
    rw [hs1, Option.getD_some]
  · rw [h2]
    show durationOf (some ((detectStationaryDev cfgUnit initialState
      (deviationOf 9.8 0 0) 0).2.stationaryStartTime.getD 5)) 5 = 0
    rw [hs1, Option.getD_some]
    decide
  · rw [h2]
    show durationOf (some ((detectStationaryDev cfgUnit initialState
      (deviationOf 9.8 0 0) 0).2.stationaryStartTime.getD 5)) 5 ≠ (5 : ℤ) - 0
    rw [hs1, Option.getD_some]
    decide

/-- Claim C7 amended: on a full-window call the returned duration equals
`durationOf` of the successor timer at `now` — that is `now - t` when the
timer holds a nonzero `t`, and 0 when it is unset or holds 0 (the truthiness
test of the source); during the dwell (quiet, timer at a positive past `t`,
dwell not elapsed, flag false) the duration is positive while `isStationary`
is still false. -/
theorem claim_c7_amended_thm (cfg : StationaryConfig) (st : DetectorState)
    (x y z : ℝ) (now : ℤ)
    (hfull : cfg.minSampleCount ≤
      (addDeviationData cfg st.deviationHistory (deviationOf x y z) now).length) :
    ((detectStationary cfg st x y z now).1.duration =
      durationOf (detectStationary cfg st x y z now).2.stationaryStartTime now) ∧
    (∀ t : ℤ, st.stationaryStartTime = some t → t ≠ 0 →
      (calculateMean
          (addDeviationData cfg st.deviationHistory (deviationOf x y z) now) <
          cfg.meanThreshold ∧
        calculateStandardDeviation
          (addDeviationData cfg st.deviationHistory (deviationOf x y z) now) <
          cfg.stdThreshold) →
      (detectStationary cfg st x y z now).1.duration = now - t) ∧
    (∀ t : ℤ, st.stationaryStartTime = some t → 0 < t → t < now →
      st.isStationary = false →
      ¬ cfg.stationaryDurationMs ≤ now - t →
      (calculateMean
          (addDeviationData cfg st.deviationHistory (deviationOf x y z) now) <
          cfg.meanThreshold ∧
        calculateStandardDeviation
          (addDeviationData cfg st.deviationHistory (deviationOf x y z) now) <
          cfg.stdThreshold) →
      0 < (detectStationary cfg st x y z now).1.duration ∧
      (detectStationary cfg st x y z now).1.isStationary = false) := by
  unfold detectStationary
  refine ⟨?_, ?_, ?_⟩
  · by_cases hq : calculateMean
        (addDeviationData cfg st.deviationHistory (deviationOf x y z) now) <
        cfg.meanThreshold ∧
      calculateStandardDeviation
        (addDeviationData cfg st.deviationHistory (deviationOf x y z) now) <
        cfg.stdThreshold
    · by_cases hd : cfg.stationaryDurationMs ≤
          now - st.stationaryStartTime.getD now
      · rw [detect_quiet_go hfull hq hd]
      · rw [detect_quiet_wait hfull hq hd]
    · rw [detect_notQuiet hfull hq]
      rfl
  · intro t hsome ht0 hq
    by_cases hd : cfg.stationaryDurationMs ≤ now - st.stationaryStartTime.getD now
    · rw [detect_quiet_go hfull hq hd, hsome, Option.getD_some]
      show (if t = 0 then (0 : ℤ) else now - t) = now - t
      rw [if_neg ht0]
    · rw [detect_quiet_wait hfull hq hd, hsome, Option.getD_some]
      show (if t = 0 then (0 : ℤ) else now - t) = now - t
      rw [if_neg ht0]
  · intro t hsome htpos htlt hflag hd hq
    have hd' : ¬ cfg.stationaryDurationMs ≤
        now - st.stationaryStartTime.getD now := by
      rw [hsome, Option.getD_some]
      exact hd
    rw [detect_quiet_wait hfull hq hd']
    constructor
    · rw [hsome, Option.getD_some]
      show (0 : ℤ) < if t = 0 then (0 : ℤ) else now - t
      rw [if_neg (by omega : t ≠ 0)]
      omega
    · exact hflag

/-- Witness for the amended C7: in mid-dwell (timer at 3, call at 10, dwell
2000 not yet elapsed) the duration is 7 > 0 while the result is still not
stationary. -/
theorem claim_c7_witness :
    cfgDwell.minSampleCount ≤
      (addDeviationData cfgDwell stTimer.deviationHistory (deviationOf 9.8 0 0)
        10).length ∧
    (detectStationary cfgDwell stTimer 9.8 0 0 10).1.duration =
      durationOf (detectStationary cfgDwell stTimer 9.8 0 0 10).2.stationaryStartTime
        10 ∧
    0 < (detectStationary cfgDwell stTimer 9.8 0 0 10).1.duration ∧
    (detectStationary cfgDwell stTimer 9.8 0 0 10).1.isStationary = false := by
  have hfull : cfgDwell.minSampleCount ≤
      (addDeviationData cfgDwell stTimer.deviationHistory (deviationOf 9.8 0 0)
        10).length :=
    addDeviationData_length_pos (by decide) _ _ _
  have hzT : ∀ d ∈ stTimer.deviationHistory, d.value = 0 := by
    intro d hd
    exact absurd hd (List.not_mem_nil d)
  have hq := quiet_of_allZero (by norm_num [cfgDwell] : (0 : ℝ) < cfgDwell.meanThreshold)
    (by norm_num [cfgDwell] : (0 : ℝ) < cfgDwell.stdThreshold)
    (@addDeviationData_allZero cfgDwell _ _ (10 : ℤ) hzT
      deviationOf_gravity)
  have happ := claim_c7_amended_thm cfgDwell stTimer 9.8 0 0 10 hfull
  have h3 := happ.2.2 3 rfl (by decide) (by decide) rfl (by decide) hq
  exact ⟨hfull, happ.1, h3.1, h3.2⟩

end AccelerometerWithLocation
